import Mathlib

/-!
Shallow embedding of the sapi request-dispatch engine (src/main.rs).

Modelling choices:
* Rust HashMap<String, String> values are modelled as association lists
  (List (String × String)); HashMap iteration order is unspecified in Rust,
  the model uses the list order.
* The network is an oracle: each loop iteration is given a CallResult, the
  outcome ureq would produce for the call made in that iteration (Ok,
  Err(Error::Status(_, r)), or any other Err, i.e. a transport error).
* Wall-clock timing (server_response_time_ms, Instant::now) is not modelled;
  the Response record carries the remaining fields.
* process::exit(1), the panic of .unwrap() on None, and the continue-with-next
  behaviours are modelled as explicit StepResult / RunResult constructors.
-/

namespace Sapi

/-- ASCII lowercase of a character, as in Rust eq_ignore_ascii_case. -/
def asciiLower (c : Char) : Char :=
  if 'A' ≤ c ∧ c ≤ 'Z' then Char.ofNat (c.toNat + 32) else c

/-- ASCII case-insensitive string equality (ureq compares header names this way). -/
def eqIgnoreAsciiCase (a b : String) : Bool :=
  a.data.map asciiLower == b.data.map asciiLower

/-- Rust str::starts_with for our ASCII content-type values. -/
def strStartsWith (s p : String) : Bool :=
  p.data.isPrefixOf s.data

/-- HashMap::get on the association-list model (exact key match). -/
def mapGet (m : List (String × String)) (k : String) : Option String :=
  (m.find? (fun kv => kv.1 == k)).map (fun kv => kv.2)

/-- ureq Request::set: replace any existing header of the same
(ASCII-case-insensitive) name, then add the new one. -/
def setHeader (hs : List (String × String)) (name value : String) :
    List (String × String) :=
  hs.filter (fun kv => !eqIgnoreAsciiCase kv.1 name) ++ [(name, value)]

/-- ureq Request::header: ASCII-case-insensitive lookup of a header value. -/
def getHeader (hs : List (String × String)) (name : String) : Option String :=
  (hs.find? (fun kv => eqIgnoreAsciiCase kv.1 name)).map (fun kv => kv.2)

/-- One request specification (struct Request in main.rs). -/
structure Request where
  target : String
  port : Nat
  endpoint : String
  method : String
  headers : Option (List (String × String))
  data : Option (List (String × String))
  deriving Repr, DecidableEq

/-- The response object ureq hands back: status, status text, and the result
of into_string (none models a body-decode failure). -/
structure HttpResponse where
  status : Nat
  status_text : String
  into_string : Option String
  deriving Repr, DecidableEq

/-- One output record (struct Response in main.rs), without the unmodelled
timing field. -/
structure Response where
  status : Nat
  status_text : String
  method : String
  url : String
  response_body : String
  deriving Repr, DecidableEq

/-- Outcome of one ureq call: Ok(r), Err(Error::Status(_, r)), or any other
error (a transport-level failure). -/
inductive CallResult where
  | ok : HttpResponse → CallResult
  | status : HttpResponse → CallResult
  | transport : String → CallResult
  deriving Repr, DecidableEq

/-- The body transmitted with a request. -/
inductive Body where
  | empty : Body
  | form : List (String × String) → Body
  | str : String → Body
  deriving Repr, DecidableEq

/-- The outgoing HTTP call actually handed to the transport. -/
structure SentCall where
  verb : String
  url : String
  headers : List (String × String)
  body : Body
  deriving Repr, DecidableEq

/-- Effect of one loop iteration of main. -/
inductive StepResult where
  | pushed : Response → StepResult
  | skippedUnsupported : StepResult
  | skippedNoBody : StepResult
  | transportSkipped : String → StepResult
  | exited : String → StepResult
  | panicked : StepResult
  deriving Repr, DecidableEq

/-- Result of the whole dispatch loop. finished means the loop ended and the
collected records are serialized; exited models process::exit(1) (nothing is
written); panicked models a Rust panic aborting the run. -/
inductive RunResult where
  | finished : List Response → RunResult
  | exited : List Response → String → RunResult
  | panicked : List Response → RunResult
  deriving Repr, DecidableEq

/-- URL composition: http://target:port endpoint, by literal concatenation. -/
def mkUrl (req : Request) : String :=
  "http://" ++ req.target ++ ":" ++ toString req.port ++ req.endpoint

/-- Applying the optional headers map to a fresh ureq request builder. -/
def applyHeaders (req : Request) : List (String × String) :=
  match req.headers with
  | some hs => hs.foldl (fun acc kv => setHeader acc kv.1 kv.2) []
  | none => []

/-- Hexadecimal digit, lowercase, as serde_json prints escapes. -/
def hexDigit (n : Nat) : Char :=
  if n < 10 then Char.ofNat (48 + n) else Char.ofNat (87 + n)

/-- serde_json escaping of one character inside a JSON string. -/
def jsonEscapeChar (c : Char) : String :=
  if c = '"' then "\\\""
  else if c = '\\' then "\\\\"
  else if c = '\x08' then "\\b"
  else if c = '\x09' then "\\t"
  else if c = '\x0a' then "\\n"
  else if c = '\x0c' then "\\f"
  else if c = '\x0d' then "\\r"
  else if c.toNat < 32 then
    "\\u00" ++ String.mk [hexDigit (c.toNat / 16), hexDigit (c.toNat % 16)]
  else String.mk [c]

/-- serde_json serialization of a string value. -/
def jsonEncodeString (s : String) : String :=
  "\"" ++ String.join (s.data.map jsonEscapeChar) ++ "\""

/-- serde_json::to_string of the data map as a JSON object (entries in the
order of the association-list model). -/
def jsonEncodeObj (d : List (String × String)) : String :=
  "\x7b" ++
    String.intercalate ","
      (d.map (fun kv => jsonEncodeString kv.1 ++ ":" ++ jsonEncodeString kv.2)) ++
  "\x7d"

/-- Response record construction repeated at every push site of main.rs:
actual status, status text, the given method label, the composed url, and the
body text (empty string when into_string fails). -/
def respRecord (r : HttpResponse) (methodLabel url : String) : Response :=
  { status := r.status, status_text := r.status_text, method := methodLabel,
    url := url, response_body := (r.into_string).getD "" }

/-- One iteration of the dispatch loop of main (lines 87-266 of main.rs),
given the oracle outcome of the network call. Returns the call handed to the
transport (none when no network call is made) and the observable effect. -/
def dispatchStep (req : Request) (net : CallResult) : Option SentCall × StepResult :=
  if req.method = "GET" ∨ req.method = "HEAD" ∨ req.method = "DELETE" then
    let url := mkUrl req
    let sent : SentCall :=
      { verb := req.method, url := url, headers := applyHeaders req, body := Body.empty }
    match net with
    | CallResult.ok r => (some sent, StepResult.pushed (respRecord r req.method url))
    | CallResult.status r => (some sent, StepResult.pushed (respRecord r req.method url))
    | CallResult.transport e =>
        (some sent,
         StepResult.exited
           ("Error while connecting to " ++ req.target ++ ":" ++ toString req.port
             ++ ": " ++ e))
  else if req.method = "POST" ∨ req.method = "PUT" ∨ req.method = "PATCH" then
    let url := mkUrl req
    let hs := applyHeaders req
    match req.data with
    | some data =>
      match getHeader hs "Content-Type" with
      | some ct =>
        if strStartsWith ct "application/x-www-form-urlencoded" then
          let sent : SentCall :=
            { verb := req.method, url := url, headers := hs, body := Body.form data }
          match net with
          | CallResult.ok r => (some sent, StepResult.pushed (respRecord r req.method url))
          | CallResult.status r => (some sent, StepResult.pushed (respRecord r "POST" url))
          | CallResult.transport e => (some sent, StepResult.transportSkipped e)
        else if strStartsWith ct "application/json" then
          let sent : SentCall :=
            { verb := req.method, url := url, headers := hs,
              body := Body.str (jsonEncodeObj data) }
          match net with
          | CallResult.ok r => (some sent, StepResult.pushed (respRecord r "POST" url))
          | CallResult.status r => (some sent, StepResult.pushed (respRecord r "POST" url))
          | CallResult.transport e => (some sent, StepResult.transportSkipped e)
        else if strStartsWith ct "text/plain" then
          match mapGet data "txt" with
          | some txt =>
            let sent : SentCall :=
              { verb := req.method, url := url, headers := hs, body := Body.str txt }
            match net with
            | CallResult.ok r => (some sent, StepResult.pushed (respRecord r "POST" url))
            | CallResult.status r => (some sent, StepResult.pushed (respRecord r "POST" url))
            | CallResult.transport e => (some sent, StepResult.transportSkipped e)
          | none => (none, StepResult.panicked)
        else (none, StepResult.skippedNoBody)
      | none => (none, StepResult.skippedNoBody)
    | none => (none, StepResult.skippedNoBody)
  else (none, StepResult.skippedUnsupported)

/-- The dispatch loop: each request consumes the oracle value at index 0, the
tail of the batch sees the oracle shifted by one. -/
def runAux (net : Nat → CallResult) (acc : List Response) :
    List Request → RunResult
  | [] => RunResult.finished acc
  | r :: rs =>
    match (dispatchStep r (net 0)).2 with
    | StepResult.pushed rec => runAux (fun n => net (n + 1)) (acc ++ [rec]) rs
    | StepResult.skippedUnsupported => runAux (fun n => net (n + 1)) acc rs
    | StepResult.skippedNoBody => runAux (fun n => net (n + 1)) acc rs
    | StepResult.transportSkipped _ => runAux (fun n => net (n + 1)) acc rs
    | StepResult.exited msg => RunResult.exited acc msg
    | StepResult.panicked => RunResult.panicked acc

/-- Whole run of the dispatch loop on a batch, starting from an empty
output collection. -/
def runBatch (net : Nat → CallResult) (reqs : List Request) : RunResult :=
  runAux net [] reqs

/-- Records produced by a batch, in input order. -/
def recordsOf (net : Nat → CallResult) : List Request → List Response
  | [] => []
  | r :: rs =>
    (match (dispatchStep r (net 0)).2 with
     | StepResult.pushed rec => [rec]
     | _ => []) ++ recordsOf (fun n => net (n + 1)) rs

/-- A method string the engine dispatches on. -/
def supportedMethod (m : String) : Bool :=
  m = "GET" || m = "HEAD" || m = "DELETE" ||
  m = "POST" || m = "PUT" || m = "PATCH"

/-- The request performs a network exchange: bodyless verbs always do;
POST/PUT/PATCH only with data present, a recognized Content-Type, and (for
text/plain) a txt field. -/
def exchanging (req : Request) : Bool :=
  if req.method = "GET" ∨ req.method = "HEAD" ∨ req.method = "DELETE" then true
  else if req.method = "POST" ∨ req.method = "PUT" ∨ req.method = "PATCH" then
    match req.data with
    | some data =>
      match getHeader (applyHeaders req) "Content-Type" with
      | some ct =>
        if strStartsWith ct "application/x-www-form-urlencoded" then true
        else if strStartsWith ct "application/json" then true
        else if strStartsWith ct "text/plain" then (mapGet data "txt").isSome
        else false
      | none => false
    | none => false
  else false

/-- The oracle outcome is a completed exchange (a response object was
obtained, possibly with a 4xx or 5xx status). -/
def completes (c : CallResult) : Bool :=
  match c with
  | CallResult.ok _ => true
  | CallResult.status _ => true
  | CallResult.transport _ => false

/-- The one per-request input that panics: a POST/PUT/PATCH spec whose
recognized Content-Type is text/plain but whose data has no txt key. -/
def missingTxtPanic (req : Request) : Bool :=
  (req.method = "POST" || req.method = "PUT" || req.method = "PATCH") &&
  (match req.data, getHeader (applyHeaders req) "Content-Type" with
   | some data, some ct =>
     !strStartsWith ct "application/x-www-form-urlencoded" &&
     !strStartsWith ct "application/json" &&
     strStartsWith ct "text/plain" &&
     (mapGet data "txt").isNone
   | _, _ => false)

/-! Helper lemmas: branch equations of the dispatch loop and disjointness of
the recognized Content-Type prefixes. -/

/-- A string starting with text/plain does not start with the form prefix. -/
theorem textPlain_not_form (ct : String) (h : strStartsWith ct "text/plain" = true) :
    strStartsWith ct "application/x-www-form-urlencoded" = false := by
  by_contra hc
  rw [Bool.not_eq_false, strStartsWith, List.isPrefixOf_iff_prefix] at hc
  rw [strStartsWith, List.isPrefixOf_iff_prefix] at h
  have hpq := List.prefix_of_prefix_length_le h hc (by decide)
  exact absurd hpq (by decide)

/-- A string starting with text/plain does not start with application/json. -/
theorem textPlain_not_json (ct : String) (h : strStartsWith ct "text/plain" = true) :
    strStartsWith ct "application/json" = false := by
  by_contra hc
  rw [Bool.not_eq_false, strStartsWith, List.isPrefixOf_iff_prefix] at hc
  rw [strStartsWith, List.isPrefixOf_iff_prefix] at h
  have hpq := List.prefix_of_prefix_length_le h hc (by decide)
  exact absurd hpq (by decide)

/-- A string starting with application/json does not start with the form
prefix. -/
theorem json_not_form (ct : String) (h : strStartsWith ct "application/json" = true) :
    strStartsWith ct "application/x-www-form-urlencoded" = false := by
  by_contra hc
  rw [Bool.not_eq_false, strStartsWith, List.isPrefixOf_iff_prefix] at hc
  rw [strStartsWith, List.isPrefixOf_iff_prefix] at h
  have hpq := List.prefix_of_prefix_length_le h hc (by decide)
  exact absurd hpq (by decide)

/-- Branch equation: GET/HEAD/DELETE requests. -/
theorem step_bodyless (req : Request) (net : CallResult)
    (h : req.method = "GET" ∨ req.method = "HEAD" ∨ req.method = "DELETE") :
    dispatchStep req net =
      (some { verb := req.method, url := mkUrl req, headers := applyHeaders req,
              body := Body.empty },
       match net with
       | CallResult.ok r => StepResult.pushed (respRecord r req.method (mkUrl req))
       | CallResult.status r => StepResult.pushed (respRecord r req.method (mkUrl req))
       | CallResult.transport e =>
           StepResult.exited ("Error while connecting to " ++ req.target ++ ":" ++
             toString req.port ++ ": " ++ e)) := by
  rcases h with h | h | h <;> cases net <;> simp [dispatchStep, h]

/-- Branch equation: unsupported method. -/
theorem step_unsupported (req : Request) (net : CallResult)
    (h : supportedMethod req.method = false) :
    dispatchStep req net = (none, StepResult.skippedUnsupported) := by
  simp only [supportedMethod, Bool.or_eq_false_iff, decide_eq_false_iff_not] at h
  obtain ⟨⟨⟨⟨⟨h1, h2⟩, h3⟩, h4⟩, h5⟩, h6⟩ := h
  simp [dispatchStep, h1, h2, h3, h4, h5, h6]

/-- Branch equation: POST/PUT/PATCH with no data. -/
theorem step_post_noData (req : Request) (net : CallResult)
    (hm : req.method = "POST" ∨ req.method = "PUT" ∨ req.method = "PATCH")
    (hd : req.data = none) :
    dispatchStep req net = (none, StepResult.skippedNoBody) := by
  rcases hm with h | h | h <;> simp [dispatchStep, h, hd]

/-- Branch equation: POST/PUT/PATCH with data but no Content-Type header. -/
theorem step_post_noCT (req : Request) (net : CallResult)
    (d : List (String × String))
    (hm : req.method = "POST" ∨ req.method = "PUT" ∨ req.method = "PATCH")
    (hd : req.data = some d)
    (hct : getHeader (applyHeaders req) "Content-Type" = none) :
    dispatchStep req net = (none, StepResult.skippedNoBody) := by
  rcases hm with h | h | h <;> simp [dispatchStep, h, hd, hct]

/-- Branch equation: POST/PUT/PATCH with a Content-Type recognized as none of
the three prefixes. -/
theorem step_post_unrecognized (req : Request) (net : CallResult)
    (d : List (String × String)) (ct : String)
    (hm : req.method = "POST" ∨ req.method = "PUT" ∨ req.method = "PATCH")
    (hd : req.data = some d)
    (hct : getHeader (applyHeaders req) "Content-Type" = some ct)
    (h1 : strStartsWith ct "application/x-www-form-urlencoded" = false)
    (h2 : strStartsWith ct "application/json" = false)
    (h3 : strStartsWith ct "text/plain" = false) :
    dispatchStep req net = (none, StepResult.skippedNoBody) := by
  rcases hm with h | h | h <;> simp [dispatchStep, h, hd, hct, h1, h2, h3]

/-- Branch equation: POST/PUT/PATCH with the form-urlencoded Content-Type. -/
theorem step_post_form (req : Request) (net : CallResult)
    (d : List (String × String)) (ct : String)
    (hm : req.method = "POST" ∨ req.method = "PUT" ∨ req.method = "PATCH")
    (hd : req.data = some d)
    (hct : getHeader (applyHeaders req) "Content-Type" = some ct)
    (hf : strStartsWith ct "application/x-www-form-urlencoded" = true) :
    dispatchStep req net =
      (some { verb := req.method, url := mkUrl req, headers := applyHeaders req,
              body := Body.form d },
       match net with
       | CallResult.ok r => StepResult.pushed (respRecord r req.method (mkUrl req))
       | CallResult.status r => StepResult.pushed (respRecord r "POST" (mkUrl req))
       | CallResult.transport e => StepResult.transportSkipped e) := by
  rcases hm with h | h | h <;> cases net <;> simp [dispatchStep, h, hd, hct, hf]

/-- Branch equation: POST/PUT/PATCH with the application/json Content-Type. -/
theorem step_post_json (req : Request) (net : CallResult)
    (d : List (String × String)) (ct : String)
    (hm : req.method = "POST" ∨ req.method = "PUT" ∨ req.method = "PATCH")
    (hd : req.data = some d)
    (hct : getHeader (applyHeaders req) "Content-Type" = some ct)
    (hj : strStartsWith ct "application/json" = true) :
    dispatchStep req net =
      (some { verb := req.method, url := mkUrl req, headers := applyHeaders req,
              body := Body.str (jsonEncodeObj d) },
       match net with
       | CallResult.ok r => StepResult.pushed (respRecord r "POST" (mkUrl req))
       | CallResult.status r => StepResult.pushed (respRecord r "POST" (mkUrl req))
       | CallResult.transport e => StepResult.transportSkipped e) := by
  have h1 := json_not_form ct hj
  rcases hm with h | h | h <;> cases net <;> simp [dispatchStep, h, hd, hct, h1, hj]

/-- Branch equation: POST/PUT/PATCH with the text/plain Content-Type and a txt
field present in data. -/
theorem step_post_text (req : Request) (net : CallResult)
    (d : List (String × String)) (ct txt : String)
    (hm : req.method = "POST" ∨ req.method = "PUT" ∨ req.method = "PATCH")
    (hd : req.data = some d)
    (hct : getHeader (applyHeaders req) "Content-Type" = some ct)
    (ht : strStartsWith ct "text/plain" = true)
    (htxt : mapGet d "txt" = some txt) :
    dispatchStep req net =
      (some { verb := req.method, url := mkUrl req, headers := applyHeaders req,
              body := Body.str txt },
       match net with
       | CallResult.ok r => StepResult.pushed (respRecord r "POST" (mkUrl req))
       | CallResult.status r => StepResult.pushed (respRecord r "POST" (mkUrl req))
       | CallResult.transport e => StepResult.transportSkipped e) := by
  have h1 := textPlain_not_form ct ht
  have h2 := textPlain_not_json ct ht
  rcases hm with h | h | h <;> cases net <;>
    simp [dispatchStep, h, hd, hct, h1, h2, ht, htxt]

/-- Branch equation: POST/PUT/PATCH with the text/plain Content-Type and no
txt field in data. The unwrap of main.rs line 224 panics. -/
theorem step_post_text_panic (req : Request) (net : CallResult)
    (d : List (String × String)) (ct : String)
    (hm : req.method = "POST" ∨ req.method = "PUT" ∨ req.method = "PATCH")
    (hd : req.data = some d)
    (hct : getHeader (applyHeaders req) "Content-Type" = some ct)
    (ht : strStartsWith ct "text/plain" = true)
    (htxt : mapGet d "txt" = none) :
    dispatchStep req net = (none, StepResult.panicked) := by
  have h1 := textPlain_not_form ct ht
  have h2 := textPlain_not_json ct ht
  rcases hm with h | h | h <;> simp [dispatchStep, h, hd, hct, h1, h2, ht, htxt]

/-- Case analysis of the exchanging predicate on the POST-family branch. -/
theorem exchanging_post_cases (req : Request)
    (hm : req.method = "POST" ∨ req.method = "PUT" ∨ req.method = "PATCH")
    (hx : exchanging req = true) :
    ∃ d ct, req.data = some d ∧
      getHeader (applyHeaders req) "Content-Type" = some ct ∧
      (strStartsWith ct "application/x-www-form-urlencoded" = true ∨
       strStartsWith ct "application/json" = true ∨
       (strStartsWith ct "text/plain" = true ∧ ∃ txt, mapGet d "txt" = some txt)) := by
  have hng : ¬(req.method = "GET" ∨ req.method = "HEAD" ∨ req.method = "DELETE") := by
    rcases hm with h | h | h <;> simp [h]
  rw [exchanging, if_neg hng, if_pos hm] at hx
  cases hd : req.data with
  | none => rw [hd] at hx; simp at hx
  | some d =>
    rw [hd] at hx
    cases hct : getHeader (applyHeaders req) "Content-Type" with
    | none => rw [hct] at hx; simp at hx
    | some ct =>
      rw [hct] at hx
      refine ⟨d, ct, rfl, rfl, ?_⟩
      simp only at hx
      split_ifs at hx with hf hj ht
      · exact Or.inl hf
      · exact Or.inr (Or.inl hj)
      · rcases Option.isSome_iff_exists.mp hx with ⟨txt, htxt⟩
        exact Or.inr (Or.inr ⟨ht, ⟨txt, htxt⟩⟩)

/-- A method outside both dispatch groups is unsupported. -/
theorem supportedMethod_false_of_not (req : Request)
    (h1 : ¬(req.method = "GET" ∨ req.method = "HEAD" ∨ req.method = "DELETE"))
    (h2 : ¬(req.method = "POST" ∨ req.method = "PUT" ∨ req.method = "PATCH")) :
    supportedMethod req.method = false := by
  simp only [not_or] at h1 h2
  simp [supportedMethod, h1.1, h1.2.1, h1.2.2, h2.1, h2.2.1, h2.2.2]

/-- An exchanging request whose oracle outcome is a completed exchange pushes
exactly one record. -/
theorem pushed_of_exchanging (req : Request) (c : CallResult)
    (hx : exchanging req = true) (hc : completes c = true) :
    ∃ rec, (dispatchStep req c).2 = StepResult.pushed rec := by
  by_cases h1 : req.method = "GET" ∨ req.method = "HEAD" ∨ req.method = "DELETE"
  · rw [step_bodyless req c h1]
    cases c with
    | ok r => exact ⟨_, rfl⟩
    | status r => exact ⟨_, rfl⟩
    | transport e => simp [completes] at hc
  · by_cases h2 : req.method = "POST" ∨ req.method = "PUT" ∨ req.method = "PATCH"
    · obtain ⟨d, ct, hd, hct, hcase⟩ := exchanging_post_cases req h2 hx
      rcases hcase with hf | hj | ⟨ht, txt, htxt⟩
      · rw [step_post_form req c d ct h2 hd hct hf]
        cases c with
        | ok r => exact ⟨_, rfl⟩
        | status r => exact ⟨_, rfl⟩
        | transport e => simp [completes] at hc
      · rw [step_post_json req c d ct h2 hd hct hj]
        cases c with
        | ok r => exact ⟨_, rfl⟩
        | status r => exact ⟨_, rfl⟩
        | transport e => simp [completes] at hc
      · rw [step_post_text req c d ct txt h2 hd hct ht htxt]
        cases c with
        | ok r => exact ⟨_, rfl⟩
        | status r => exact ⟨_, rfl⟩
        | transport e => simp [completes] at hc
    · have hfalse : exchanging req = false := by
        rw [exchanging, if_neg h1, if_neg h2]
      rw [hfalse] at hx
      cases hx

/-- Every step whose oracle outcome is a completed exchange and whose request
is not the missing-txt panic either pushes a record or skips the request. -/
theorem step_absorbed (req : Request) (c : CallResult)
    (hc : completes c = true) (hp : missingTxtPanic req = false) :
    (∃ rec, (dispatchStep req c).2 = StepResult.pushed rec) ∨
    (dispatchStep req c).2 = StepResult.skippedUnsupported ∨
    (dispatchStep req c).2 = StepResult.skippedNoBody := by
  by_cases h1 : req.method = "GET" ∨ req.method = "HEAD" ∨ req.method = "DELETE"
  · left
    rw [step_bodyless req c h1]
    cases c with
    | ok r => exact ⟨_, rfl⟩
    | status r => exact ⟨_, rfl⟩
    | transport e => simp [completes] at hc
  · by_cases h2 : req.method = "POST" ∨ req.method = "PUT" ∨ req.method = "PATCH"
    · cases hd : req.data with
      | none => right; right; rw [step_post_noData req c h2 hd]
      | some d =>
        cases hct : getHeader (applyHeaders req) "Content-Type" with
        | none => right; right; rw [step_post_noCT req c d h2 hd hct]
        | some ct =>
          by_cases hf : strStartsWith ct "application/x-www-form-urlencoded" = true
          · left
            rw [step_post_form req c d ct h2 hd hct hf]
            cases c with
            | ok r => exact ⟨_, rfl⟩
            | status r => exact ⟨_, rfl⟩
            | transport e => simp [completes] at hc
          · rw [Bool.not_eq_true] at hf
            by_cases hj : strStartsWith ct "application/json" = true
            · left
              rw [step_post_json req c d ct h2 hd hct hj]
              cases c with
              | ok r => exact ⟨_, rfl⟩
              | status r => exact ⟨_, rfl⟩
              | transport e => simp [completes] at hc
            · rw [Bool.not_eq_true] at hj
              by_cases ht : strStartsWith ct "text/plain" = true
              · cases htxt : mapGet d "txt" with
                | some txt =>
                  left
                  rw [step_post_text req c d ct txt h2 hd hct ht htxt]
                  cases c with
                  | ok r => exact ⟨_, rfl⟩
                  | status r => exact ⟨_, rfl⟩
                  | transport e => simp [completes] at hc
                | none =>
                  exfalso
                  rcases h2 with h | h | h <;>
                    simp [missingTxtPanic, h, hd, hct, hf, hj, ht, htxt] at hp
              · rw [Bool.not_eq_true] at ht
                right; right
                rw [step_post_unrecognized req c d ct h2 hd hct hf hj ht]
    · right; left
      rw [step_unsupported req c (supportedMethod_false_of_not req h1 h2)]

/-- The loop finishes and appends one record per request, in input order, when
every spec exchanges and every oracle outcome is a completed exchange. -/
theorem runAux_all_exchanging (rs : List Request) :
    ∀ (net : Nat → CallResult) (acc : List Response),
      (∀ i (h : i < rs.length),
        exchanging (rs.get ⟨i, h⟩) = true ∧ completes (net i) = true) →
      runAux net acc rs = RunResult.finished (acc ++ recordsOf net rs) ∧
      (recordsOf net rs).length = rs.length := by
  induction rs with
  | nil => intro net acc _; simp [runAux, recordsOf]
  | cons r rs ih =>
    intro net acc h
    have h0 := h 0 (Nat.succ_pos _)
    obtain ⟨rec, hrec⟩ := pushed_of_exchanging r (net 0) h0.1 h0.2
    have htail : ∀ i (hi : i < rs.length),
        exchanging (rs.get ⟨i, hi⟩) = true ∧
          completes ((fun n => net (n + 1)) i) = true :=
      fun i hi => h (i + 1) (Nat.succ_lt_succ hi)
    obtain ⟨h1, h2⟩ := ih (fun n => net (n + 1)) (acc ++ [rec]) htail
    refine ⟨?_, ?_⟩
    · simp only [runAux, hrec, recordsOf]
      rw [h1]
      simp
    · simp only [recordsOf, hrec]
      simp [h2]

/-- The loop finishes with one record fewer than the batch size when exactly
one spec has an unsupported method and every other spec exchanges with a
completed oracle outcome. -/
theorem runAux_one_unsupported (rs : List Request) :
    ∀ (net : Nat → CallResult) (acc : List Response) (j : Nat) (hj : j < rs.length),
      (∀ i (h : i < rs.length), i ≠ j →
        exchanging (rs.get ⟨i, h⟩) = true ∧ completes (net i) = true) →
      supportedMethod ((rs.get ⟨j, hj⟩).method) = false →
      runAux net acc rs = RunResult.finished (acc ++ recordsOf net rs) ∧
      (recordsOf net rs).length + 1 = rs.length := by
  induction rs with
  | nil => intro net acc j hj _ _; exact absurd hj (Nat.not_lt_zero j)
  | cons r rs ih =>
    intro net acc j hj h hsup
    cases j with
    | zero =>
      have hstep := step_unsupported r (net 0) hsup
      have htail : ∀ i (hi : i < rs.length),
          exchanging (rs.get ⟨i, hi⟩) = true ∧
            completes ((fun n => net (n + 1)) i) = true :=
        fun i hi => h (i + 1) (Nat.succ_lt_succ hi) (Nat.succ_ne_zero i)
      obtain ⟨h1, h2⟩ := runAux_all_exchanging rs (fun n => net (n + 1)) acc htail
      refine ⟨?_, ?_⟩
      · simp only [runAux, recordsOf, hstep]
        rw [h1]
        simp
      · simp only [recordsOf, hstep]
        simp [h2]
    | succ j =>
      have hj' : j < rs.length := Nat.lt_of_succ_lt_succ hj
      have h0 := h 0 (Nat.succ_pos _) (Ne.symm (Nat.succ_ne_zero j))
      obtain ⟨rec, hrec⟩ := pushed_of_exchanging r (net 0) h0.1 h0.2
      have htail : ∀ i (hi : i < rs.length), i ≠ j →
          exchanging (rs.get ⟨i, hi⟩) = true ∧
            completes ((fun n => net (n + 1)) i) = true :=
        fun i hi hne =>
          h (i + 1) (Nat.succ_lt_succ hi) (fun hcon => hne (Nat.succ_injective hcon))
      obtain ⟨h1, h2⟩ := ih (fun n => net (n + 1)) (acc ++ [rec]) j hj' htail hsup
      refine ⟨?_, ?_⟩
      · simp only [runAux, recordsOf, hrec]
        rw [h1]
        simp
      · simp only [recordsOf, hrec, List.singleton_append, List.length_append,
          List.length_cons, List.length_nil]
        omega

/-! Claim theorems. -/

/-- C1 (amended): a transport failure prints a diagnostic and terminates the
process with a non-zero exit status for GET/HEAD/DELETE requests (main.rs
lines 111-114); for POST/PUT/PATCH requests the diagnostic is printed to the
error stream but the process does not terminate — the request is skipped and
the loop continues (lines 183, 220, 257). -/
theorem c1_transport_policy (req : Request) (e : String) :
    ((req.method = "GET" ∨ req.method = "HEAD" ∨ req.method = "DELETE") →
      (dispatchStep req (CallResult.transport e)).2 =
        StepResult.exited ("Error while connecting to " ++ req.target ++ ":" ++
          toString req.port ++ ": " ++ e)) ∧
    ((req.method = "POST" ∨ req.method = "PUT" ∨ req.method = "PATCH") →
      exchanging req = true →
      (dispatchStep req (CallResult.transport e)).2 =
        StepResult.transportSkipped e) := by
  constructor
  · intro h
    rw [step_bodyless req (CallResult.transport e) h]
  · intro h2 hx
    obtain ⟨d, ct, hd, hct, hcase⟩ := exchanging_post_cases req h2 hx
    rcases hcase with hf | hj | ⟨ht, txt, htxt⟩
    · rw [step_post_form req (CallResult.transport e) d ct h2 hd hct hf]
    · rw [step_post_json req (CallResult.transport e) d ct h2 hd hct hj]
    · rw [step_post_text req (CallResult.transport e) d ct txt h2 hd hct ht htxt]

/-- Concrete GET request used by the c1 witness. -/
def c1GetReq : Request :=
  { target := "h", port := 8080, endpoint := "/p", method := "GET",
    headers := none, data := none }

/-- Concrete PUT request with a json body used by the c1 witness. -/
def c1PutReq : Request :=
  { target := "e.com", port := 80, endpoint := "/x", method := "PUT",
    headers := some [("Content-Type", "application/json")],
    data := some [("a", "1")] }

/-- Witness: c1_transport_policy applied at concrete requests. -/
theorem c1_transport_policy_witness :
    (dispatchStep c1GetReq (CallResult.transport "refused")).2 =
      StepResult.exited ("Error while connecting to " ++ "h" ++ ":" ++
        toString (8080 : Nat) ++ ": " ++ "refused") ∧
    (dispatchStep c1PutReq (CallResult.transport "refused")).2 =
      StepResult.transportSkipped "refused" :=
  ⟨(c1_transport_policy c1GetReq "refused").1 (Or.inl rfl),
   (c1_transport_policy c1PutReq "refused").2 (Or.inr (Or.inl rfl)) (by decide)⟩

/-- Concrete POST request with a form body used by the c1 counterexample. -/
def c1PostFormReq : Request :=
  { target := "example.com", port := 80, endpoint := "/x", method := "POST",
    headers := some [("Content-Type", "application/x-www-form-urlencoded")],
    data := some [("a", "1")] }

/-- Counterexample to C1 as stated: a POST request whose network call fails
with a transport error does not terminate the process; the step only prints
the diagnostic and is skipped, and a batch made of that one request finishes
normally with an empty output collection. -/
theorem c1_counterexample :
    (dispatchStep c1PostFormReq (CallResult.transport "connection refused")).2 =
      StepResult.transportSkipped "connection refused" ∧
    runBatch (fun _ => CallResult.transport "connection refused") [c1PostFormReq] =
      RunResult.finished [] := by decide

/-- C2 (amended): for a POST/PUT/PATCH spec whose headers have no Content-Type
key, or one recognized by none of the three prefixes, no HTTP request is
performed at all — nothing is sent (not even with an empty body) and no record
is produced; the loop proceeds silently (main.rs line 260). -/
theorem c2_unrecognized_content_type (req : Request) (net : CallResult)
    (d : List (String × String))
    (hm : req.method = "POST" ∨ req.method = "PUT" ∨ req.method = "PATCH")
    (hd : req.data = some d)
    (hct : getHeader (applyHeaders req) "Content-Type" = none ∨
      ∃ ct, getHeader (applyHeaders req) "Content-Type" = some ct ∧
        strStartsWith ct "application/x-www-form-urlencoded" = false ∧
        strStartsWith ct "application/json" = false ∧
        strStartsWith ct "text/plain" = false) :
    dispatchStep req net = (none, StepResult.skippedNoBody) := by
  rcases hct with hct | ⟨ct, hct, h1, h2, h3⟩
  · exact step_post_noCT req net d hm hd hct
  · exact step_post_unrecognized req net d ct hm hd hct h1 h2 h3

/-- Concrete POST request without a Content-Type header used by the c2
witness. -/
def c2NoCTReq : Request :=
  { target := "h", port := 80, endpoint := "/w", method := "POST",
    headers := some [("X-Req", "1")], data := some [("a", "1")] }

/-- Witness: c2_unrecognized_content_type applied at a concrete request. -/
theorem c2_unrecognized_content_type_witness :
    dispatchStep c2NoCTReq (CallResult.ok ⟨200, "OK", some "hi"⟩) =
      (none, StepResult.skippedNoBody) :=
  c2_unrecognized_content_type c2NoCTReq (CallResult.ok ⟨200, "OK", some "hi"⟩)
    [("a", "1")] (Or.inl rfl) rfl (Or.inl (by decide))

/-- Concrete PATCH request with an unrecognized Content-Type used by the c2
counterexample. -/
def c2OctetReq : Request :=
  { target := "h", port := 80, endpoint := "/w", method := "PATCH",
    headers := some [("Content-Type", "application/octet-stream")],
    data := some [("a", "1")] }

/-- Counterexample to C2 as stated: with non-empty data and an unrecognized
Content-Type, no request is sent at all — the sent-call component is none, so
the claim that the request is still sent (with an empty body) is false. -/
theorem c2_counterexample :
    dispatchStep c2OctetReq (CallResult.ok ⟨200, "OK", some "hi"⟩) =
      (none, StepResult.skippedNoBody) := by decide

/-- C3 (amended): every per-request error other than a transport error is
absorbed inside the dispatch loop — the step either pushes a record or skips
the request — with one exception the claim overlooks: a text/plain request
whose data lacks the txt key panics (unwrap on None, main.rs line 224) and the
panic escapes, aborting the run. -/
theorem c3_absorption (req : Request) (c : CallResult)
    (hc : completes c = true) (hp : missingTxtPanic req = false) :
    (∃ rec, (dispatchStep req c).2 = StepResult.pushed rec) ∨
    (dispatchStep req c).2 = StepResult.skippedUnsupported ∨
    (dispatchStep req c).2 = StepResult.skippedNoBody :=
  step_absorbed req c hc hp

/-- Concrete unsupported-method request used by the c3 witness. -/
def c3BadMethodReq : Request :=
  { target := "h", port := 80, endpoint := "/", method := "OPTIONS",
    headers := none, data := none }

/-- Witness: c3_absorption applied at a concrete request. -/
theorem c3_absorption_witness :
    (∃ rec, (dispatchStep c3BadMethodReq (CallResult.ok ⟨200, "OK", some ""⟩)).2 =
      StepResult.pushed rec) ∨
    (dispatchStep c3BadMethodReq (CallResult.ok ⟨200, "OK", some ""⟩)).2 =
      StepResult.skippedUnsupported ∨
    (dispatchStep c3BadMethodReq (CallResult.ok ⟨200, "OK", some ""⟩)).2 =
      StepResult.skippedNoBody :=
  c3_absorption c3BadMethodReq (CallResult.ok ⟨200, "OK", some ""⟩)
    (by decide) (by decide)

/-- Concrete PUT request with text/plain Content-Type and no txt key, used by
the c3 counterexample. -/
def c3NoTxtReq : Request :=
  { target := "h", port := 80, endpoint := "/", method := "PUT",
    headers := some [("Content-Type", "text/plain")],
    data := some [("a", "1")] }

/-- Counterexample to C3 as stated: a text/plain request whose data mapping
lacks the key txt makes the step panic, and the panic escapes the dispatch
loop, aborting the whole batch. -/
theorem c3_counterexample :
    (dispatchStep c3NoTxtReq (CallResult.ok ⟨200, "OK", some ""⟩)).2 =
      StepResult.panicked ∧
    runBatch (fun _ => CallResult.ok ⟨200, "OK", some ""⟩) [c3NoTxtReq] =
      RunResult.panicked [] := by decide

/-- C4: a batch of N specs that all perform exchanges and whose exchanges all
complete (HTTP error statuses included) finishes with exactly N records,
accumulated in input order (recordsOf enumerates the pushed records in the
order of the input list); if one spec among the N has an unsupported method,
it produces no record and the run finishes with exactly N - 1 records, still
in input order. -/
theorem c4_batch_counts (net : Nat → CallResult) (reqs : List Request) :
    ((∀ i (h : i < reqs.length),
        exchanging (reqs.get ⟨i, h⟩) = true ∧ completes (net i) = true) →
      runBatch net reqs = RunResult.finished (recordsOf net reqs) ∧
      (recordsOf net reqs).length = reqs.length) ∧
    (∀ j (hj : j < reqs.length),
      (∀ i (h : i < reqs.length), i ≠ j →
        exchanging (reqs.get ⟨i, h⟩) = true ∧ completes (net i) = true) →
      supportedMethod ((reqs.get ⟨j, hj⟩).method) = false →
      runBatch net reqs = RunResult.finished (recordsOf net reqs) ∧
      (recordsOf net reqs).length + 1 = reqs.length) := by
  constructor
  · intro h
    obtain ⟨h1, h2⟩ := runAux_all_exchanging reqs net [] h
    exact ⟨by simpa [runBatch] using h1, h2⟩
  · intro j hj h hsup
    obtain ⟨h1, h2⟩ := runAux_one_unsupported reqs net [] j hj h hsup
    exact ⟨by simpa [runBatch] using h1, h2⟩

/-- Concrete network oracle answering 200 OK to everything, used by the c4
witness. -/
def c4Net : Nat → CallResult := fun _ => CallResult.ok ⟨200, "OK", some "pong"⟩

/-- Concrete GET request used by the c4 witness. -/
def c4Get1 : Request :=
  { target := "h", port := 80, endpoint := "/a", method := "GET",
    headers := none, data := none }

/-- Concrete DELETE request used by the c4 witness. -/
def c4Del2 : Request :=
  { target := "h", port := 80, endpoint := "/b", method := "DELETE",
    headers := none, data := none }

/-- Concrete unsupported-method request used by the c4 witness. -/
def c4Bad : Request :=
  { target := "h", port := 80, endpoint := "/c", method := "TRACE",
    headers := none, data := none }

/-- Witness: c4_batch_counts applied at concrete batches — a two-request batch
finishing with 2 records, and a two-request batch with one unsupported method
finishing with 1 record. -/
theorem c4_batch_counts_witness :
    (runBatch c4Net [c4Get1, c4Del2] =
        RunResult.finished (recordsOf c4Net [c4Get1, c4Del2]) ∧
      (recordsOf c4Net [c4Get1, c4Del2]).length = 2) ∧
    (runBatch c4Net [c4Get1, c4Bad] =
        RunResult.finished (recordsOf c4Net [c4Get1, c4Bad]) ∧
      (recordsOf c4Net [c4Get1, c4Bad]).length + 1 = 2) :=
  ⟨(c4_batch_counts c4Net [c4Get1, c4Del2]).1 (by decide),
   (c4_batch_counts c4Net [c4Get1, c4Bad]).2 1 (by decide) (by decide) (by decide)⟩

/-- C5: a dispatched request whose remote returns an HTTP error status is not
treated as an error — a record is pushed carrying the actual status code,
status text, url and response body, exactly as in the Ok branch for the same
response object. -/
theorem c5_http_error_recorded (req : Request) (r : HttpResponse)
    (hx : exchanging req = true) (_h4 : 400 ≤ r.status) :
    (∃ rec, (dispatchStep req (CallResult.status r)).2 = StepResult.pushed rec ∧
      rec.status = r.status ∧ rec.status_text = r.status_text ∧
      rec.url = mkUrl req ∧ rec.response_body = (r.into_string).getD "") ∧
    (∃ rec, (dispatchStep req (CallResult.ok r)).2 = StepResult.pushed rec ∧
      rec.status = r.status ∧ rec.status_text = r.status_text ∧
      rec.url = mkUrl req ∧ rec.response_body = (r.into_string).getD "") := by
  by_cases h1 : req.method = "GET" ∨ req.method = "HEAD" ∨ req.method = "DELETE"
  · rw [step_bodyless req (CallResult.status r) h1,
      step_bodyless req (CallResult.ok r) h1]
    exact ⟨⟨_, rfl, rfl, rfl, rfl, rfl⟩, ⟨_, rfl, rfl, rfl, rfl, rfl⟩⟩
  · by_cases h2 : req.method = "POST" ∨ req.method = "PUT" ∨ req.method = "PATCH"
    · obtain ⟨d, ct, hd, hct, hcase⟩ := exchanging_post_cases req h2 hx
      rcases hcase with hf | hj | ⟨ht, txt, htxt⟩
      · rw [step_post_form req (CallResult.status r) d ct h2 hd hct hf,
          step_post_form req (CallResult.ok r) d ct h2 hd hct hf]
        exact ⟨⟨_, rfl, rfl, rfl, rfl, rfl⟩, ⟨_, rfl, rfl, rfl, rfl, rfl⟩⟩
      · rw [step_post_json req (CallResult.status r) d ct h2 hd hct hj,
          step_post_json req (CallResult.ok r) d ct h2 hd hct hj]
        exact ⟨⟨_, rfl, rfl, rfl, rfl, rfl⟩, ⟨_, rfl, rfl, rfl, rfl, rfl⟩⟩
      · rw [step_post_text req (CallResult.status r) d ct txt h2 hd hct ht htxt,
          step_post_text req (CallResult.ok r) d ct txt h2 hd hct ht htxt]
        exact ⟨⟨_, rfl, rfl, rfl, rfl, rfl⟩, ⟨_, rfl, rfl, rfl, rfl, rfl⟩⟩
    · have hfalse : exchanging req = false := by
        rw [exchanging, if_neg h1, if_neg h2]
      rw [hfalse] at hx
      cases hx

/-- Concrete GET request used by the c5 witness. -/
def c5GetReq : Request :=
  { target := "h", port := 80, endpoint := "/missing", method := "GET",
    headers := none, data := none }

/-- Witness: c5_http_error_recorded applied at a 404 response. -/
theorem c5_http_error_recorded_witness :
    (∃ rec, (dispatchStep c5GetReq
        (CallResult.status ⟨404, "Not Found", some "nope"⟩)).2 =
          StepResult.pushed rec ∧
      rec.status = (404 : Nat) ∧ rec.status_text = "Not Found" ∧
      rec.url = mkUrl c5GetReq ∧ rec.response_body = "nope") ∧
    (∃ rec, (dispatchStep c5GetReq
        (CallResult.ok ⟨404, "Not Found", some "nope"⟩)).2 =
          StepResult.pushed rec ∧
      rec.status = (404 : Nat) ∧ rec.status_text = "Not Found" ∧
      rec.url = mkUrl c5GetReq ∧ rec.response_body = "nope") :=
  c5_http_error_recorded c5GetReq ⟨404, "Not Found", some "nope"⟩
    (by decide) (by decide)

/-- C6: a GET/HEAD/DELETE spec issues a request of the matching verb with an
empty body, and the data field is never consulted — replacing data by anything
leaves the step, both the sent call and the effect, unchanged. -/
theorem c6_bodyless_verbs (req : Request) (net : CallResult)
    (h : req.method = "GET" ∨ req.method = "HEAD" ∨ req.method = "DELETE") :
    (dispatchStep req net).1 =
      some { verb := req.method, url := mkUrl req, headers := applyHeaders req,
             body := Body.empty } ∧
    ∀ d, dispatchStep { req with data := d } net = dispatchStep req net := by
  constructor
  · rw [step_bodyless req net h]
  · intro d
    rcases h with h | h | h <;> cases net <;>
      simp [dispatchStep, h, mkUrl, applyHeaders, respRecord]

/-- Concrete HEAD request carrying data, used by the c6 witness. -/
def c6HeadReq : Request :=
  { target := "h", port := 80, endpoint := "/", method := "HEAD",
    headers := none, data := some [("ignored", "yes")] }

/-- Witness: c6_bodyless_verbs applied at a concrete HEAD request, the
data-irrelevance part instantiated at data none. -/
theorem c6_bodyless_verbs_witness :
    (dispatchStep c6HeadReq (CallResult.ok ⟨200, "OK", some ""⟩)).1 =
      some { verb := "HEAD", url := mkUrl c6HeadReq,
             headers := applyHeaders c6HeadReq, body := Body.empty } ∧
    dispatchStep { c6HeadReq with data := none }
        (CallResult.ok ⟨200, "OK", some ""⟩) =
      dispatchStep c6HeadReq (CallResult.ok ⟨200, "OK", some ""⟩) :=
  ⟨(c6_bodyless_verbs c6HeadReq (CallResult.ok ⟨200, "OK", some ""⟩)
      (Or.inr (Or.inl rfl))).1,
   (c6_bodyless_verbs c6HeadReq (CallResult.ok ⟨200, "OK", some ""⟩)
      (Or.inr (Or.inl rfl))).2 none⟩

/-- C7: a POST/PUT/PATCH spec whose exchange completes with an HTTP-level
failure status gets a record whose method field is the literal string POST
(main.rs lines 174, 211, 248), while url, status and status text are those of
the actual request and response. -/
theorem c7_error_status_method_label (req : Request) (r : HttpResponse)
    (hm : req.method = "POST" ∨ req.method = "PUT" ∨ req.method = "PATCH")
    (hx : exchanging req = true) :
    ∃ rec, (dispatchStep req (CallResult.status r)).2 = StepResult.pushed rec ∧
      rec.method = "POST" ∧ rec.url = mkUrl req ∧
      rec.status = r.status ∧ rec.status_text = r.status_text := by
  obtain ⟨d, ct, hd, hct, hcase⟩ := exchanging_post_cases req hm hx
  rcases hcase with hf | hj | ⟨ht, txt, htxt⟩
  · rw [step_post_form req (CallResult.status r) d ct hm hd hct hf]
    exact ⟨_, rfl, rfl, rfl, rfl, rfl⟩
  · rw [step_post_json req (CallResult.status r) d ct hm hd hct hj]
    exact ⟨_, rfl, rfl, rfl, rfl, rfl⟩
  · rw [step_post_text req (CallResult.status r) d ct txt hm hd hct ht htxt]
    exact ⟨_, rfl, rfl, rfl, rfl, rfl⟩

/-- Concrete PATCH request with a form body, used by the c7 witness. -/
def c7PatchReq : Request :=
  { target := "h", port := 80, endpoint := "/u", method := "PATCH",
    headers := some [("Content-Type", "application/x-www-form-urlencoded")],
    data := some [("k", "v")] }

/-- Witness: c7_error_status_method_label applied at a concrete PATCH request
answered with a 500. -/
theorem c7_error_status_method_label_witness :
    ∃ rec, (dispatchStep c7PatchReq
        (CallResult.status ⟨500, "Internal Server Error", some "boom"⟩)).2 =
          StepResult.pushed rec ∧
      rec.method = "POST" ∧ rec.url = mkUrl c7PatchReq ∧
      rec.status = (500 : Nat) ∧ rec.status_text = "Internal Server Error" :=
  c7_error_status_method_label c7PatchReq ⟨500, "Internal Server Error", some "boom"⟩
    (Or.inr (Or.inr rfl)) (by decide)

/-- C8: a POST/PUT/PATCH spec with a Content-Type starting with text/plain and
a data mapping containing txt sends exactly the value of txt as the body text,
verbatim, with the matching verb. -/
theorem c8_text_plain_verbatim (req : Request) (net : CallResult)
    (d : List (String × String)) (ct txt : String)
    (hm : req.method = "POST" ∨ req.method = "PUT" ∨ req.method = "PATCH")
    (hd : req.data = some d)
    (hct : getHeader (applyHeaders req) "Content-Type" = some ct)
    (ht : strStartsWith ct "text/plain" = true)
    (htxt : mapGet d "txt" = some txt) :
    (dispatchStep req net).1 =
      some { verb := req.method, url := mkUrl req, headers := applyHeaders req,
             body := Body.str txt } := by
  rw [step_post_text req net d ct txt hm hd hct ht htxt]

/-- Concrete POST request with a text/plain body, used by the c8 witness. -/
def c8TextReq : Request :=
  { target := "h", port := 80, endpoint := "/t", method := "POST",
    headers := some [("Content-Type", "text/plain")],
    data := some [("txt", "hello")] }

/-- Witness: c8_text_plain_verbatim applied at a concrete request — the body
sent is exactly the bytes hello. -/
theorem c8_text_plain_verbatim_witness :
    (dispatchStep c8TextReq (CallResult.ok ⟨200, "OK", some ""⟩)).1 =
      some { verb := "POST", url := mkUrl c8TextReq,
             headers := applyHeaders c8TextReq, body := Body.str "hello" } :=
  c8_text_plain_verbatim c8TextReq (CallResult.ok ⟨200, "OK", some ""⟩)
    [("txt", "hello")] "text/plain" "hello"
    (Or.inl rfl) rfl (by decide) (by decide) (by decide)

/-- C9: a POST/PUT/PATCH spec that completes successfully records the literal
string POST as its method when the Content-Type starts with application/json
(main.rs line 196) or text/plain (line 233); only the
application/x-www-form-urlencoded success branch records the actual method of
the spec (line 159). -/
theorem c9_success_method_label (req : Request) (r : HttpResponse)
    (d : List (String × String)) (ct : String)
    (hm : req.method = "POST" ∨ req.method = "PUT" ∨ req.method = "PATCH")
    (hd : req.data = some d)
    (hct : getHeader (applyHeaders req) "Content-Type" = some ct) :
    (strStartsWith ct "application/json" = true →
      ∃ rec, (dispatchStep req (CallResult.ok r)).2 = StepResult.pushed rec ∧
        rec.method = "POST") ∧
    (strStartsWith ct "text/plain" = true →
      ∀ txt, mapGet d "txt" = some txt →
      ∃ rec, (dispatchStep req (CallResult.ok r)).2 = StepResult.pushed rec ∧
        rec.method = "POST") ∧
    (strStartsWith ct "application/x-www-form-urlencoded" = true →
      ∃ rec, (dispatchStep req (CallResult.ok r)).2 = StepResult.pushed rec ∧
        rec.method = req.method) := by
  refine ⟨?_, ?_, ?_⟩
  · intro hj
    rw [step_post_json req (CallResult.ok r) d ct hm hd hct hj]
    exact ⟨_, rfl, rfl⟩
  · intro ht txt htxt
    rw [step_post_text req (CallResult.ok r) d ct txt hm hd hct ht htxt]
    exact ⟨_, rfl, rfl⟩
  · intro hf
    rw [step_post_form req (CallResult.ok r) d ct hm hd hct hf]
    exact ⟨_, rfl, rfl⟩

/-- Concrete PUT request with a json body, used by the c9 witness. -/
def c9PutJsonReq : Request :=
  { target := "h", port := 80, endpoint := "/j", method := "PUT",
    headers := some [("Content-Type", "application/json")],
    data := some [("a", "1")] }

/-- Witness: c9_success_method_label applied at a concrete PUT request with a
json body answered 200 — the record is pushed with method POST, not PUT. -/
theorem c9_success_method_label_witness :
    ∃ rec, (dispatchStep c9PutJsonReq (CallResult.ok ⟨200, "OK", some "d"⟩)).2 =
        StepResult.pushed rec ∧
      rec.method = "POST" :=
  (c9_success_method_label c9PutJsonReq ⟨200, "OK", some "d"⟩ [("a", "1")]
    "application/json" (Or.inr (Or.inl rfl)) rfl (by decide)).1 (by decide)

/-- C10: a POST/PUT/PATCH spec whose data field is absent performs no HTTP
request and produces no record, whatever headers it carries; the loop
proceeds with the next request. -/
theorem c10_post_without_data (req : Request) (net : CallResult)
    (hm : req.method = "POST" ∨ req.method = "PUT" ∨ req.method = "PATCH")
    (hd : req.data = none) :
    dispatchStep req net = (none, StepResult.skippedNoBody) ∧
    (∀ (nf : Nat → CallResult) (acc : List Response) (rs : List Request),
      runAux nf acc (req :: rs) = runAux (fun n => nf (n + 1)) acc rs) := by
  refine ⟨step_post_noData req net hm hd, ?_⟩
  intro nf acc rs
  simp only [runAux, step_post_noData req (nf 0) hm hd]

/-- Concrete POST request without data but with headers, used by the c10
witness. -/
def c10PostReq : Request :=
  { target := "h", port := 80, endpoint := "/n", method := "POST",
    headers := some [("Content-Type", "application/json"), ("X", "y")],
    data := none }

/-- Witness: c10_post_without_data applied at a concrete request, the loop
part instantiated at a singleton batch. -/
theorem c10_post_without_data_witness :
    dispatchStep c10PostReq (CallResult.ok ⟨200, "OK", some ""⟩) =
      (none, StepResult.skippedNoBody) ∧
    runAux (fun _ => CallResult.ok ⟨200, "OK", some ""⟩) [] [c10PostReq] =
      runAux (fun _ => CallResult.ok ⟨200, "OK", some ""⟩) [] [] :=
  ⟨(c10_post_without_data c10PostReq (CallResult.ok ⟨200, "OK", some ""⟩)
      (Or.inl rfl) rfl).1,
   (c10_post_without_data c10PostReq (CallResult.ok ⟨200, "OK", some ""⟩)
      (Or.inl rfl) rfl).2 (fun _ => CallResult.ok ⟨200, "OK", some ""⟩) [] []⟩

end Sapi
